import Mathlib

/-!
Verification of the lamb-kb-server backend against its natural-language
specification.  The Python sources under `backend/` are shallowly embedded:
pure logic becomes Lean functions, the database and the ChromaDB vector store
become explicit parameters (oracles) quantified over in the theorems, and
code that can raise returns `Except`.
-/

namespace LambKB

/-- An HTTP error response, as raised by FastAPI's HTTPException. -/
structure HTTPError where
  statusCode : Nat
  detail : String
deriving DecidableEq

/-- Modelled from the spec: `database/models.py` is not in the sources.  The
spec describes the file status as a trivial 3-state enum
PROCESSING/COMPLETED/FAILED; the in-source strings (router docs and service
error messages) show the enum VALUES are the lowercase words
"processing"/"completed"/"failed" while the member NAMES are uppercase. -/
inductive FileStatus where
  | processing
  | completed
  | failed
deriving DecidableEq

/-- The Python enum value of a FileStatus member (lowercase string). -/
def FileStatus.value : FileStatus → String
  | .processing => "processing"
  | .completed => "completed"
  | .failed => "failed"

/-- The Python enum member name of a FileStatus member (uppercase string). -/
def FileStatus.memberName : FileStatus → String
  | .processing => "PROCESSING"
  | .completed => "COMPLETED"
  | .failed => "FAILED"

/-- All members of the FileStatus enum. -/
def fileStatusMembers : List FileStatus := [.processing, .completed, .failed]

/-- The keys of `FileStatus.__members__` (member names). -/
def fileStatusMemberNames : List String := fileStatusMembers.map FileStatus.memberName

/-- Python's by-value enum lookup `FileStatus(s)`: succeeds exactly when `s`
is the value of some member. -/
def fileStatusFromValue (s : String) : Option FileStatus :=
  fileStatusMembers.find? (fun st => st.value == s)

/-- A row of the file registry table (the fields the embedded code uses). -/
structure FileRegistry where
  id : Nat
  collection_id : Nat
  original_filename : String
  file_path : String
  status : FileStatus
  document_count : Option Nat
deriving DecidableEq

/-- Modelled from the spec: `IngestionService.update_file_status` is not in
the sources.  The spec says every status change is a direct field assignment;
the row with the given id is looked up and its status field is set.  Returns
the updated row (or none when no row has the id) and the updated table. -/
def updateFileStatusDb (rows : List FileRegistry) (fid : Nat) (st : FileStatus) :
    Option FileRegistry × List FileRegistry :=
  match rows.find? (fun r => r.id == fid) with
  | none => (none, rows)
  | some r =>
    let r' := { r with status := st }
    (some r', rows.map (fun q => if q.id == fid then { q with status := st } else q))

/-- Python's str.upper() restricted to ASCII letters (all strings the
embedded code passes through it are ASCII). -/
def upChar (c : Char) : Char :=
  (([('a','A'),('b','B'),('c','C'),('d','D'),('e','E'),('f','F'),('g','G'),
     ('h','H'),('i','I'),('j','J'),('k','K'),('l','L'),('m','M'),('n','N'),
     ('o','O'),('p','P'),('q','Q'),('r','R'),('s','S'),('t','T'),('u','U'),
     ('v','V'),('w','W'),('x','X'),('y','Y'),('z','Z')].find?
    (fun p => p.1 == c)).map Prod.snd).getD c

/-- Python's str.upper() on a whole string. -/
def pyUpper (s : String) : String := ⟨s.data.map upChar⟩

/-- The status check of the update-file-status route
(`files_router.update_file_status`): the request is admitted when
`status.upper()` is among the member names of FileStatus. -/
def routeAdmitsStatus (s : String) : Bool :=
  fileStatusMemberNames.contains (pyUpper s)

/-- `CollectionsService.update_file_status` (services/collections.py):
validates the status string by enum VALUE via `FileStatus(status)`, then
updates the row, 404 when the file id is unknown. -/
def serviceUpdateFileStatus (rows : List FileRegistry) (fid : Nat) (s : String) :
    Except HTTPError FileRegistry :=
  match fileStatusFromValue s with
  | none =>
    .error ⟨400, "Invalid status: " ++ s ++
      ". Must be one of: completed, processing, failed, deleted"⟩
  | some st =>
    match updateFileStatusDb rows fid st with
    | (some r, _) => .ok r
    | (none, _) =>
      .error ⟨404, "File with ID not found"⟩

/-- The update-file-status route handler (`files_router.update_file_status`):
rejects with 400 when `status.upper()` is not a FileStatus member name,
otherwise forwards `status.upper()` to the service layer. -/
def updateFileStatusRoute (rows : List FileRegistry) (fid : Nat) (s : String) :
    Except HTTPError FileRegistry :=
  if ¬ routeAdmitsStatus s then
    .error ⟨400, "Invalid status '" ++ s ++ "'"⟩
  else
    serviceUpdateFileStatus rows fid (pyUpper s)

/-! ## Ingestion endpoints (collections_router.py)

The three ingestion endpoints (`ingest-url`, `ingest-file`, `ingest-base`)
are embedded as functions from an environment — carrying the outcome of every
external call the handler makes — to the HTTP result together with the trace
of registry/vector-store events the handler and its background task emit, in
order.  FastAPI runs a background task after the response is produced, so the
background-task events follow the synchronous ones in the trace. -/

/-- A plugin held by the plugin registry (name and kind, the two fields the
routers inspect). -/
structure Plugin where
  name : String
  kind : String
deriving DecidableEq

/-- Modelled from the spec: `IngestionService.get_plugin` (the Plugin
Registry lookup; `services/ingestion_service.py` is not in the sources).  The
registry holds plugin implementations; lookup by name returns the plugin when
held, none otherwise. -/
def getPlugin (registry : List Plugin) (name : String) : Option Plugin :=
  registry.find? (fun p => p.name == name)

/-- Observable events on the stored state: creation of a file registry row
(with its initial status), the background task's invocation of the plugin's
ingest, the hand-over of the produced chunks to the vector-store insert, and
a status update of the registry row. -/
inductive Ev where
  | register (st : FileStatus)
  | bgIngest
  | bgInsert (docCount : Nat)
  | bgSetStatus (st : FileStatus) (documentCount : Option Nat)
deriving DecidableEq

/-- Outcomes of the external calls made by a background ingestion task:
`ingestResult` is the number of documents the plugin's ingest returns (none
when it raises), `insertOk` tells whether the vector-store insert succeeds. -/
structure BgOutcome where
  ingestResult : Option Nat
  insertOk : Bool
deriving DecidableEq

/-- The background task shared by the three ingestion endpoints
(collections_router.py, the nested `background_task` functions): invoke the
plugin's ingest; on success hand the documents to
`add_documents_to_collection` and set the registry row to COMPLETED with the
document count; on any exception set it to FAILED. -/
def bgTaskEvents (o : BgOutcome) : List Ev :=
  match o.ingestResult with
  | none => [.bgIngest, .bgSetStatus .failed none]
  | some n =>
    .bgIngest :: .bgInsert n ::
      (if o.insertOk then [.bgSetStatus .completed (some n)]
       else [.bgSetStatus .failed none])

/-- The response dictionary of the ingestion endpoints
(`AddDocumentsResponse`). -/
structure IngestResponse where
  collection_id : Nat
  collection_name : String
  documents_added : Nat
  success : Bool
  file_path : String
  file_url : String
  original_filename : String
  plugin_name : String
  file_registry_id : Nat
  status : String
deriving DecidableEq

/-- Environment of an ingest-url request: results of the external calls the
handler performs, in the order the code makes them. -/
structure UrlEnv where
  /-- `CollectionService.get_collection` finds the collection row. -/
  collectionFound : Bool
  /-- `chroma_client.get_collection` succeeds for the collection's name. -/
  chromaFound : Bool
  /-- the plugin registry. -/
  registry : List Plugin
  /-- `request.plugin_name`. -/
  pluginName : String
  /-- `request.urls`. -/
  urls : List String
  collectionId : Nat
  collectionName : String
  /-- path of the generated markdown file. -/
  filePath : String
  /-- id the database assigns to the new registry row. -/
  regId : Nat
  /-- outcomes of the background task's external calls. -/
  outcome : BgOutcome
deriving DecidableEq

/-- The response dictionary returned by `ingest_url_to_collection` on the
accepted path (the literal dict of collections_router.py lines 217-228). -/
def urlResponse (env : UrlEnv) : IngestResponse :=
  { collection_id := env.collectionId
    collection_name := env.collectionName
    documents_added := 0
    success := true
    file_path := env.filePath
    file_url := ""
    original_filename := "urls_" ++ toString env.urls.length
    plugin_name := env.pluginName
    file_registry_id := env.regId
    status := "processing" }

/-- `ingest_url_to_collection` (collections_router.py): validate the
collection in both stores, look up the plugin (404 when absent), register the
file row with status PROCESSING, schedule the background task, and answer
with documents_added 0 and status "processing". -/
def ingestUrlEndpoint (env : UrlEnv) : Except HTTPError IngestResponse × List Ev :=
  if ¬ env.collectionFound then
    (.error ⟨404, "Collection not found in database"⟩, [])
  else if ¬ env.chromaFound then
    (.error ⟨404, "Collection exists in database but not in ChromaDB"⟩, [])
  else
    match getPlugin env.registry env.pluginName with
    | none => (.error ⟨404, "Plugin " ++ env.pluginName ++ " not found"⟩, [])
    | some _ =>
      (.ok (urlResponse env), .register .processing :: bgTaskEvents env.outcome)

/-- Environment of an ingest-file request. -/
structure FileEnv where
  collectionFound : Bool
  chromaFound : Bool
  registry : List Plugin
  pluginName : String
  /-- `json.loads(plugin_params)` succeeds. -/
  paramsJsonValid : Bool
  /-- `IngestionService.save_uploaded_file` succeeds (an uncaught exception
  there becomes a 500 before any registration). -/
  saveOk : Bool
  collectionId : Nat
  collectionName : String
  /-- result of `IngestionService.save_uploaded_file`. -/
  filePath : String
  fileUrl : String
  originalFilename : String
  regId : Nat
  outcome : BgOutcome
deriving DecidableEq

/-- The response dictionary returned by `ingest_file_to_collection` on the
accepted path (the literal dict of collections_router.py lines 311-320). -/
def fileResponse (env : FileEnv) : IngestResponse :=
  { collection_id := env.collectionId
    collection_name := env.collectionName
    documents_added := 0
    success := true
    file_path := env.filePath
    file_url := env.fileUrl
    original_filename := env.originalFilename
    plugin_name := env.pluginName
    file_registry_id := env.regId
    status := "processing" }

/-- `ingest_file_to_collection` (collections_router.py): validate the
collection, look up the plugin (404 when absent), parse plugin_params (400 on
invalid JSON), save the upload, register the file row with status PROCESSING,
schedule the background task, and answer with documents_added 0 and status
"processing". -/
def ingestFileEndpoint (env : FileEnv) : Except HTTPError IngestResponse × List Ev :=
  if ¬ env.collectionFound then
    (.error ⟨404, "Collection not found in database"⟩, [])
  else if ¬ env.chromaFound then
    (.error ⟨404, "Collection exists in database but not in ChromaDB"⟩, [])
  else if (getPlugin env.registry env.pluginName).isNone then
    (.error ⟨404, "Plugin '" ++ env.pluginName ++ "' not found"⟩, [])
  else if ¬ env.paramsJsonValid then
    (.error ⟨400, "Invalid JSON in plugin_params"⟩, [])
  else if ¬ env.saveOk then
    (.error ⟨500, "Internal Server Error"⟩, [])
  else
    (.ok (fileResponse env), .register .processing :: bgTaskEvents env.outcome)

/-- Environment of an ingest-base request. -/
structure BaseEnv where
  collectionFound : Bool
  chromaFound : Bool
  registry : List Plugin
  pluginName : String
  collectionId : Nat
  collectionName : String
  filePath : String
  uniqueFilename : String
  regId : Nat
  outcome : BgOutcome
deriving DecidableEq

/-- The response dictionary returned by `ingest_base_to_collection` on the
accepted path (the literal dict of collections_router.py lines 408-419). -/
def baseResponse (env : BaseEnv) : IngestResponse :=
  { collection_id := env.collectionId
    collection_name := env.collectionName
    documents_added := 0
    success := true
    file_path := env.filePath
    file_url := ""
    original_filename := env.pluginName ++ "_" ++ env.uniqueFilename
    plugin_name := env.pluginName
    file_registry_id := env.regId
    status := "processing" }

/-- `ingest_base_to_collection` (collections_router.py): validate the
collection, look up the plugin (404 when absent), check its kind is
"base-ingest" (400 otherwise), register the file row with status PROCESSING,
schedule the background task, and answer with documents_added 0 and status
"processing". -/
def ingestBaseEndpoint (env : BaseEnv) : Except HTTPError IngestResponse × List Ev :=
  if ¬ env.collectionFound then
    (.error ⟨404, "Collection not found in database"⟩, [])
  else if ¬ env.chromaFound then
    (.error ⟨404, "Collection exists in database but not in ChromaDB"⟩, [])
  else
    match getPlugin env.registry env.pluginName with
    | none => (.error ⟨404, "Plugin " ++ env.pluginName ++ " not found"⟩, [])
    | some p =>
      if p.kind ≠ "base-ingest" then
        (.error ⟨400, "Plugin " ++ env.pluginName ++ " is not a base-ingest plugin"⟩, [])
      else
        (.ok (baseResponse env), .register .processing :: bgTaskEvents env.outcome)

/-- The statuses a trace writes to the file registry row, in order (the
initial status of the created row, then every status update). -/
def statusHistory (tr : List Ev) : List FileStatus :=
  tr.filterMap (fun e =>
    match e with
    | .register st => some st
    | .bgSetStatus st _ => some st
    | _ => none)

/-- Whether an event is the creation of a registry row. -/
def isRegisterEv : Ev → Bool
  | .register _ => true
  | _ => false

/-- Whether an event is a plugin ingest invocation. -/
def isIngestEv : Ev → Bool
  | .bgIngest => true
  | _ => false

/-- Whether an event is a vector-store insert. -/
def isInsertEv : Ev → Bool
  | .bgInsert _ => true
  | _ => false

/-- Whether an event is a status update of the registry row. -/
def isSetStatusEv : Ev → Bool
  | .bgSetStatus _ _ => true
  | _ => false

/-- Index of the first event satisfying the predicate. -/
def firstIdx (p : Ev → Bool) : List Ev → Option Nat
  | [] => none
  | e :: es => if p e then some 0 else (firstIdx p es).map (· + 1)

/-- Whether an ingest-url request passes every pre-registration check. -/
def urlAccepted (env : UrlEnv) : Bool :=
  env.collectionFound && env.chromaFound &&
    (getPlugin env.registry env.pluginName).isSome

/-- Whether an ingest-file request passes every pre-registration check. -/
def fileAccepted (env : FileEnv) : Bool :=
  env.collectionFound && env.chromaFound &&
    (getPlugin env.registry env.pluginName).isSome && env.paramsJsonValid &&
    env.saveOk

/-- Whether an ingest-base request passes every pre-registration check. -/
def baseAccepted (env : BaseEnv) : Bool :=
  env.collectionFound && env.chromaFound &&
    ((getPlugin env.registry env.pluginName).map Plugin.kind == some "base-ingest")

/-! ## Collection creation (services/collection_service.py and
services/collections.py) -/

/-- The Python value of a collection's `embeddings_model` attribute: either a
JSON string (as stored by the database layer) or an already-decoded dict. -/
inductive EmbField where
  | str (s : String)
  | dict (d : List (String × String))
deriving DecidableEq

/-- A collection row as returned by the database layer
(`DBCollectionService.create_collection`), with the fields the embedded code
reads. -/
structure DbCollection where
  name : String
  chromadb_uuid : Option String
  embeddings_model : EmbField
deriving DecidableEq

/-- Python truthiness of the `chromadb_uuid` attribute: `None` and the empty
string are falsy. -/
def truthyUuid : Option String → Bool
  | none => false
  | some s => s != ""

/-- Environment of a create-collection call: outcomes of the external calls,
in the order the code makes them.  `dbResult` is what the database layer's
create_collection returns (error when it raises); `parseJson` models
`json.loads` on the stored embeddings_model string. -/
structure CreateEnv where
  /-- a collection with the requested name already exists. -/
  existingFound : Bool
  /-- `Visibility(collection.visibility)` succeeds. -/
  visibilityValid : Bool
  /-- the request carries an embeddings_model. -/
  hasEmbeddingsModel : Bool
  /-- the test embedding of "Test embedding validation" succeeds. -/
  embValidationOk : Bool
  dbResult : Except String DbCollection
  parseJson : String → Option (List (String × String))

/-- `CollectionService.create_collection` (services/collection_service.py):
409 when the name exists, 400 on invalid visibility, then inside a
try/except-Exception block: validate the embeddings model, create the row via
the database layer, decode a string-valued embeddings_model with
`json.loads(x or '\x7b\x7d')`, and raise when `chromadb_uuid` is not stored
— every exception of the block (including the raised HTTPException 500)
is re-raised as a 400 "Failed to create collection". -/
def createCollectionService (env : CreateEnv) : Except HTTPError DbCollection :=
  if env.existingFound then
    .error ⟨409, "Collection with this name already exists"⟩
  else if ¬ env.visibilityValid then
    .error ⟨400, "Invalid visibility value"⟩
  else if env.hasEmbeddingsModel ∧ ¬ env.embValidationOk then
    .error ⟨400, "Failed to create collection: Embeddings model validation failed"⟩
  else
    match env.dbResult with
    | .error _ => .error ⟨400, "Failed to create collection"⟩
    | .ok c =>
      match c.embeddings_model with
      | .str s =>
        match env.parseJson (if s = "" then "{}" else s) with
        | none => .error ⟨400, "Failed to create collection"⟩
        | some d =>
          if ¬ truthyUuid c.chromadb_uuid then
            .error ⟨400,
              "Failed to create collection: Collection created but ChromaDB UUID was not stored"⟩
          else .ok { c with embeddings_model := .dict d }
      | .dict _ =>
        if ¬ truthyUuid c.chromadb_uuid then
          .error ⟨400,
            "Failed to create collection: Collection created but ChromaDB UUID was not stored"⟩
        else .ok c

/-- `CollectionsService.create_collection` (services/collections.py): same
pipeline, except that a failing `json.loads` on the embeddings_model string
falls back to the empty dict instead of raising. -/
def createCollectionCols (env : CreateEnv) : Except HTTPError DbCollection :=
  if env.existingFound then
    .error ⟨409, "Collection with this name already exists"⟩
  else if ¬ env.visibilityValid then
    .error ⟨400, "Invalid visibility value"⟩
  else if env.hasEmbeddingsModel ∧ ¬ env.embValidationOk then
    .error ⟨400, "Failed to create collection: Embeddings model validation failed"⟩
  else
    match env.dbResult with
    | .error _ => .error ⟨400, "Failed to create collection"⟩
    | .ok c =>
      match c.embeddings_model with
      | .str s =>
        if ¬ truthyUuid c.chromadb_uuid then
          .error ⟨400,
            "Failed to create collection: Collection was created but ChromaDB UUID was not stored"⟩
        else .ok { c with embeddings_model := .dict ((env.parseJson s).getD []) }
      | .dict _ =>
        if ¬ truthyUuid c.chromadb_uuid then
          .error ⟨400,
            "Failed to create collection: Collection was created but ChromaDB UUID was not stored"⟩
        else .ok c

/-! ## The simple_query plugin (plugins/simple_query.py) -/

/-- Chunk metadata as stored in the vector store (an opaque string map). -/
abbrev MetaD := List (String × String)

/-- A formatted query result of the simple_query plugin. -/
structure QueryHit where
  similarity : ℚ
  data : String
  metadata : MetaD
deriving DecidableEq

/-- The vector store's answer to one query text: parallel lists of documents,
metadatas and distances (the `[0]` entries of ChromaDB's response). -/
structure ChromaQueryResult where
  documents : List String
  metadatas : List MetaD
  distances : List ℚ
deriving DecidableEq

/-- The result-formatting loop of `SimpleQueryPlugin.query`: walk the
documents with their index; when the index is within both the metadatas and
the distances, compute similarity as 1.0 minus the reported distance and keep
the hit when the similarity reaches the threshold. -/
def formatResults (threshold : ℚ) :
    List String → List MetaD → List ℚ → List QueryHit
  | d :: ds, m :: ms, q :: qs =>
    let sim := 1 - q
    (if threshold ≤ sim then [⟨sim, d, m⟩] else []) ++ formatResults threshold ds ms qs
  | _, _, _ => []

/-- Python's str.strip() restricted to the blank characters that occur in the
embedded strings. -/
def pyStrip (s : String) : String :=
  let ws : List Char := [' ', '\t', '\n', '\r']
  ⟨((s.data.dropWhile (ws.contains ·)).reverse.dropWhile (ws.contains ·)).reverse⟩

/-- Environment of a simple_query call: guard outcomes and the vector store
as an oracle mapping the requested `n_results` to its answer. -/
structure QueryEnv where
  /-- a db session was passed in kwargs. -/
  dbProvided : Bool
  /-- the collection row exists. -/
  collectionFound : Bool
  /-- ChromaDB holds the collection. -/
  chromaOk : Bool
  store : Nat → ChromaQueryResult

/-- `SimpleQueryPlugin.query`: defaults top_k to 5 and threshold to 0.0,
checks the db session, rejects blank query text, resolves the collection in
both stores, queries the vector store with `n_results = top_k`, and formats
the answer with `formatResults`. -/
def simpleQueryPlugin (env : QueryEnv) (queryText : String)
    (topK : Option Nat) (threshold : Option ℚ) : Except String (List QueryHit) :=
  let k := topK.getD 5
  let thr := threshold.getD 0
  if ¬ env.dbProvided then .error "Database session is required"
  else if queryText = "" ∨ pyStrip queryText = "" then .error "Query text cannot be empty"
  else if ¬ env.collectionFound then .error "Collection not found"
  else if ¬ env.chromaOk then
    .error "Collection exists in database but not in ChromaDB"
  else
    let res := env.store k
    .ok (formatResults thr res.documents res.metadatas res.distances)

/-! ## The url_ingest plugin (plugins/url_ingest.py) -/

/-- A document chunk produced by url_ingest, with the metadata fields the
claims are about. -/
structure UDoc where
  text : String
  source : String
  chunk_index : Nat
  chunk_count : Nat
deriving DecidableEq

/-- One entry of the Firecrawl batch-scrape response: the markdown content
when the scrape produced one. -/
structure ScrapeResult where
  markdown : Option String
deriving DecidableEq

/-- The per-URL chunk documents: the splitter's chunks of the content, the
j-th carrying chunk_index j and chunk_count the number of chunks. -/
def chunkDocsOf (url : String) (chunks : List String) : List UDoc :=
  chunks.enum.map (fun p => ⟨p.2, url, p.1, chunks.length⟩)

/-- The body of the batch-result loop of `URLIngestPlugin.ingest` for the
i-th result: skip results without markdown or with empty (falsy) content,
otherwise split and chunk, pairing the result with the i-th input URL. -/
def perResultDocs (splitter : String → List String) (urls : List String)
    (i : Nat) (r : ScrapeResult) : List UDoc :=
  match r.markdown with
  | some c =>
    if c = "" then [] else chunkDocsOf ((urls.get? i).getD "unknown_url") (splitter c)
  | none => []

/-- The batch-result loop of `URLIngestPlugin.ingest`: documents of each
result are appended to `all_documents` in order. -/
def urlLoop (splitter : String → List String) (urls : List String) :
    Nat → List ScrapeResult → List UDoc
  | _, [] => []
  | i, r :: rs => perResultDocs splitter urls i r ++ urlLoop splitter urls (i + 1) rs

/-- `URLIngestPlugin.ingest`: fail when the Firecrawl app is not initialized,
when no URLs are given, when the splitter type is unknown, or when the batch
scrape does not complete; otherwise run the batch-result loop.  The splitter
(a LangChain text splitter) and the batch response are external. -/
def urlIngest (firecrawlReady : Bool) (splitterKnown : Bool)
    (splitter : String → List String) (urls : List String)
    (batchStatus : String) (data : List ScrapeResult) : Except String (List UDoc) :=
  if ¬ firecrawlReady then .error "Firecrawl App not initialized"
  else if urls = [] then .error "No URLs provided"
  else if ¬ splitterKnown then .error "Unsupported splitter type"
  else if batchStatus ≠ "completed" then .error "Batch processing failed"
  else .ok (urlLoop splitter urls 0 data)

/-! ## File content reconstruction (services/file_service.py and
services/collections.py) -/

/-- Chunk metadata in the vector store, as read by get_file_content: possibly
absent chunk_index and chunk_count keys. -/
structure ChunkMeta where
  chunk_index : Option Int
  chunk_count : Option Int
deriving DecidableEq

/-- The vector store's answer to a get: parallel documents and metadatas,
none standing for a missing or falsy (empty) metadata dict. -/
structure ChromaGetResult where
  documents : List String
  metadatas : List (Option ChunkMeta)
deriving DecidableEq

/-- A chunk_docs entry built by both get_file_content implementations. -/
structure ChunkDoc where
  text : String
  index : Int
  count : Int
deriving DecidableEq

/-- The chunk_docs construction loop shared verbatim by
`FileService.get_file_content` and `CollectionsService.get_file_content`:
entries whose index is beyond the metadatas or whose metadata is falsy are
skipped; chunk_index defaults to the position, chunk_count to 0. -/
def buildChunkDocs : Nat → List String → List (Option ChunkMeta) → List ChunkDoc
  | _, [], _ => []
  | _, _ :: _, [] => []
  | i, d :: ds, m? :: ms =>
    (match m? with
     | some m => [⟨d, m.chunk_index.getD i, m.chunk_count.getD 0⟩]
     | none => []) ++ buildChunkDocs (i + 1) ds ms

/-- Stable insertion of a chunk after every already-placed chunk whose index
is not greater (Python's stable sort by the "index" key). -/
def insertChunk (c : ChunkDoc) : List ChunkDoc → List ChunkDoc
  | [] => [c]
  | d :: ds => if d.index ≤ c.index then d :: insertChunk c ds else c :: d :: ds

/-- `chunk_docs.sort(key=lambda x: x["index"])`: stable sort by index. -/
def sortChunks (l : List ChunkDoc) : List ChunkDoc :=
  l.foldl (fun acc c => insertChunk c acc) []

/-- The chunk texts in chunk_index order, as the claim words it: the chunks
sorted by chunk_index, texts extracted. -/
def sortedChunkTexts (res : ChromaGetResult) : List String :=
  (sortChunks (buildChunkDocs 0 res.documents res.metadatas)).map (·.text)

/-- The separator `FileService.get_file_content` joins with: the Python
source writes "\\n", the literal two-character sequence backslash-n, not a
newline. -/
def fsSeparator : String := "\\n"

/-- Content reconstruction of `FileService.get_file_content`
(services/file_service.py): build chunk_docs, sort by index, join the texts
with the literal backslash-n sequence. -/
def fileServiceContent (res : ChromaGetResult) : String :=
  String.intercalate fsSeparator
    ((sortChunks (buildChunkDocs 0 res.documents res.metadatas)).map (·.text))

/-- Content reconstruction of `CollectionsService.get_file_content`
(services/collections.py): build chunk_docs, sort by index, join the texts
with a newline character. -/
def collectionsServiceContent (res : ChromaGetResult) : String :=
  String.intercalate "\n"
    ((sortChunks (buildChunkDocs 0 res.documents res.metadatas)).map (·.text))

/-! ## Auxiliary observers and concrete example inputs -/

/-- The HTTP status code of an error result, none on success. -/
def errStatus {α : Type} : Except HTTPError α → Option Nat
  | .error e => some e.statusCode
  | .ok _ => none

/-- The pipeline ordering of an ingestion trace: the registry row is created
first; the background task's ingest invocation exists and comes later; any
vector-store insert comes after the ingest invocation; the status update
exists, is last, and follows both. -/
def PipelineOrdered (tr : List Ev) : Prop :=
  firstIdx isRegisterEv tr = some 0 ∧
  (∃ i, firstIdx isIngestEv tr = some i ∧ 0 < i) ∧
  (∀ i j, firstIdx isIngestEv tr = some i → firstIdx isInsertEv tr = some j → i < j) ∧
  (∀ j k, firstIdx isInsertEv tr = some j → firstIdx isSetStatusEv tr = some k → j < k) ∧
  (∀ i k, firstIdx isIngestEv tr = some i → firstIdx isSetStatusEv tr = some k → i < k) ∧
  (∃ k, firstIdx isSetStatusEv tr = some k ∧ k + 1 = tr.length)

/-- Example plugin registry: the two plugins the sources register. -/
def exRegistry : List Plugin :=
  [⟨"url_ingest", "base-ingest"⟩, ⟨"simple_ingest", "file-ingest"⟩]

/-- Example background outcome: ingest produced 3 documents, insert ok. -/
def exOutcome : BgOutcome := ⟨some 3, true⟩

/-- Example accepted ingest-url environment. -/
def exUrlEnv : UrlEnv :=
  ⟨true, true, exRegistry, "url_ingest", ["https://example.org"], 1, "col",
    "/static/col/abc.md", 7, exOutcome⟩

/-- Example accepted ingest-file environment. -/
def exFileEnv : FileEnv :=
  ⟨true, true, exRegistry, "simple_ingest", true, true, 1, "col",
    "/static/col/f.txt", "/static/f.txt", "f.txt", 8, exOutcome⟩

/-- Example accepted ingest-base environment. -/
def exBaseEnv : BaseEnv :=
  ⟨true, true, exRegistry, "url_ingest", 1, "col", "/static/col/x.md", "x.md", 9,
    exOutcome⟩

/-- Example ingest-url environment naming a plugin the registry does not hold. -/
def exBadUrlEnv : UrlEnv :=
  ⟨true, true, exRegistry, "nope", ["https://example.org"], 1, "col",
    "/static/col/abc.md", 7, exOutcome⟩

/-- Example ingest-file environment naming a plugin the registry does not hold. -/
def exBadFileEnv : FileEnv :=
  ⟨true, true, exRegistry, "nope", true, true, 1, "col", "/static/col/f.txt",
    "/static/f.txt", "f.txt", 8, exOutcome⟩

/-- Example ingest-base environment naming a plugin the registry does not hold. -/
def exBadBaseEnv : BaseEnv :=
  ⟨true, true, exRegistry, "nope", 1, "col", "/static/col/x.md", "x.md", 9,
    exOutcome⟩

/-- Example file registry row. -/
def exRow : FileRegistry := ⟨1, 1, "f.txt", "/static/col/f.txt", .processing, none⟩

/-- Example file registry table. -/
def exRows : List FileRegistry := [exRow]

/-- Example database-layer collection row with a stored ChromaDB UUID. -/
def exDbCol : DbCollection := ⟨"col", some "some-uuid-1234", .dict []⟩

/-- Example database-layer collection row without a stored ChromaDB UUID. -/
def exDbColNoUuid : DbCollection := ⟨"col", none, .dict []⟩

/-- Example create-collection environment whose database layer stores a UUID. -/
def exCreateEnv : CreateEnv := ⟨false, true, false, true, .ok exDbCol, fun _ => some []⟩

/-- Example create-collection environment whose database layer stores no UUID. -/
def exCreateEnvNoUuid : CreateEnv :=
  ⟨false, true, false, true, .ok exDbColNoUuid, fun _ => some []⟩

/-- Example vector-store query answer: two hits at distances 0 and 2. -/
def exStore : Nat → ChromaQueryResult :=
  fun _ => ⟨["alpha", "beta"], [[("filename", "f.txt")], [("filename", "f.txt")]], [0, 2]⟩

/-- Example simple_query environment. -/
def exQueryEnv : QueryEnv := ⟨true, true, true, exStore⟩

/-- The hit the example query keeps. -/
def exHit : QueryHit := ⟨1, "alpha", [("filename", "f.txt")]⟩

/-- Example text splitter producing two chunks. -/
def exSplitter (s : String) : List String := [s ++ "-1", s ++ "-2"]

/-- Example vector-store get answer with two chunks in order. -/
def exGetRes : ChromaGetResult :=
  ⟨["a", "b"], [some ⟨some 0, some 2⟩, some ⟨some 1, some 2⟩]⟩

/-- Example vector-store get answer with a single chunk. -/
def exGetResSmall : ChromaGetResult := ⟨["a"], [some ⟨some 0, some 1⟩]⟩

/-! ## Helper lemmas -/

theorem ingestUrl_run_of_accepted (env : UrlEnv) (h : urlAccepted env = true) :
    ingestUrlEndpoint env =
      (.ok (urlResponse env), .register .processing :: bgTaskEvents env.outcome) := by
  unfold urlAccepted at h
  simp only [Bool.and_eq_true, Option.isSome_iff_exists] at h
  obtain ⟨⟨hc, hch⟩, p, hp⟩ := h
  unfold ingestUrlEndpoint
  simp [hc, hch, hp]

theorem ingestFile_run_of_accepted (env : FileEnv) (h : fileAccepted env = true) :
    ingestFileEndpoint env =
      (.ok (fileResponse env), .register .processing :: bgTaskEvents env.outcome) := by
  unfold fileAccepted at h
  simp only [Bool.and_eq_true, Option.isSome_iff_exists] at h
  obtain ⟨⟨⟨⟨hc, hch⟩, p, hp⟩, hj⟩, hsv⟩ := h
  unfold ingestFileEndpoint
  simp [hc, hch, hp, hj, hsv]

theorem ingestBase_run_of_accepted (env : BaseEnv) (h : baseAccepted env = true) :
    ingestBaseEndpoint env =
      (.ok (baseResponse env), .register .processing :: bgTaskEvents env.outcome) := by
  unfold baseAccepted at h
  simp only [Bool.and_eq_true, beq_iff_eq, Option.map_eq_some'] at h
  obtain ⟨⟨hc, hch⟩, p, hp, hk⟩ := h
  unfold ingestBaseEndpoint
  simp [hc, hch, hp, hk]

theorem statusHistory_run (o : BgOutcome) :
    statusHistory (.register .processing :: bgTaskEvents o) = [.processing, .completed] ∨
    statusHistory (.register .processing :: bgTaskEvents o) = [.processing, .failed] := by
  rcases o with ⟨_ | n, ins⟩ <;> cases ins <;>
    simp [bgTaskEvents, statusHistory]

theorem pipelineOrdered_run (o : BgOutcome) :
    PipelineOrdered (.register .processing :: bgTaskEvents o) := by
  rcases o with ⟨_ | n, ins⟩ <;> cases ins <;>
    simp [PipelineOrdered, bgTaskEvents, firstIdx, isRegisterEv, isIngestEv,
      isInsertEv, isSetStatusEv]

/-! ## Claim theorems -/

/-- C1, counterexample to the claim as stated: a file registry entry is not
created in a pending status — the row created by an accepted ingestion
request carries status processing from the start, and no member of the
FileStatus enum has the value "pending" at all. -/
theorem claim1_counterexample :
    (statusHistory (ingestFileEndpoint exFileEnv).2).head? = some .processing ∧
    FileStatus.processing.value = "processing" ∧
    FileStatus.processing.value ≠ "pending" ∧
    FileStatus.completed.value ≠ "pending" ∧
    FileStatus.failed.value ≠ "pending" := by decide

/-- C1 (amended): every file registry entry created by an accepted ingestion
request (URL, file or base) is created directly in status processing, and its
status history is processing→completed when the background ingestion succeeds
and processing→failed when it errors, with no other transitions. -/
theorem claim1_status_transitions (e1 : UrlEnv) (e2 : FileEnv) (e3 : BaseEnv) :
    (urlAccepted e1 = true →
      statusHistory (ingestUrlEndpoint e1).2 = [.processing, .completed] ∨
      statusHistory (ingestUrlEndpoint e1).2 = [.processing, .failed]) ∧
    (fileAccepted e2 = true →
      statusHistory (ingestFileEndpoint e2).2 = [.processing, .completed] ∨
      statusHistory (ingestFileEndpoint e2).2 = [.processing, .failed]) ∧
    (baseAccepted e3 = true →
      statusHistory (ingestBaseEndpoint e3).2 = [.processing, .completed] ∨
      statusHistory (ingestBaseEndpoint e3).2 = [.processing, .failed]) := by
  refine ⟨fun h => ?_, fun h => ?_, fun h => ?_⟩
  · rw [ingestUrl_run_of_accepted e1 h]
    exact statusHistory_run e1.outcome
  · rw [ingestFile_run_of_accepted e2 h]
    exact statusHistory_run e2.outcome
  · rw [ingestBase_run_of_accepted e3 h]
    exact statusHistory_run e3.outcome

/-- Witness for the amended C1 at concrete accepted environments. -/
theorem claim1_status_transitions_witness :
    (statusHistory (ingestUrlEndpoint exUrlEnv).2 = [.processing, .completed] ∨
      statusHistory (ingestUrlEndpoint exUrlEnv).2 = [.processing, .failed]) ∧
    (statusHistory (ingestFileEndpoint exFileEnv).2 = [.processing, .completed] ∨
      statusHistory (ingestFileEndpoint exFileEnv).2 = [.processing, .failed]) ∧
    (statusHistory (ingestBaseEndpoint exBaseEnv).2 = [.processing, .completed] ∨
      statusHistory (ingestBaseEndpoint exBaseEnv).2 = [.processing, .failed]) :=
  ⟨(claim1_status_transitions exUrlEnv exFileEnv exBaseEnv).1 (by decide),
   (claim1_status_transitions exUrlEnv exFileEnv exBaseEnv).2.1 (by decide),
   (claim1_status_transitions exUrlEnv exFileEnv exBaseEnv).2.2 (by decide)⟩

/-- C2: for every accepted ingestion request (file upload or URL), the file
registry row is created before any background-task event; the background task
invokes the plugin's ingest, any hand-over of chunks to the vector-store
insert comes after it, and the status update exists, comes after both, and is
the last event. -/
theorem claim2_pipeline_order (e1 : UrlEnv) (e2 : FileEnv) :
    (urlAccepted e1 = true → PipelineOrdered (ingestUrlEndpoint e1).2) ∧
    (fileAccepted e2 = true → PipelineOrdered (ingestFileEndpoint e2).2) := by
  refine ⟨fun h => ?_, fun h => ?_⟩
  · rw [ingestUrl_run_of_accepted e1 h]
    exact pipelineOrdered_run e1.outcome
  · rw [ingestFile_run_of_accepted e2 h]
    exact pipelineOrdered_run e2.outcome

/-- Witness for C2 at concrete accepted environments. -/
theorem claim2_pipeline_order_witness :
    PipelineOrdered (ingestUrlEndpoint exUrlEnv).2 ∧
    PipelineOrdered (ingestFileEndpoint exFileEnv).2 :=
  ⟨(claim2_pipeline_order exUrlEnv exFileEnv).1 (by decide),
   (claim2_pipeline_order exUrlEnv exFileEnv).2 (by decide)⟩

/-- C5: every accepted ingest-file and ingest-url request answers right away
with success true, documents_added 0 and status "processing", whatever the
background task will later do. -/
theorem claim5_immediate_response (e1 : UrlEnv) (e2 : FileEnv) :
    (urlAccepted e1 = true →
      (ingestUrlEndpoint e1).1 = .ok (urlResponse e1) ∧
      (urlResponse e1).success = true ∧
      (urlResponse e1).documents_added = 0 ∧
      (urlResponse e1).status = "processing") ∧
    (fileAccepted e2 = true →
      (ingestFileEndpoint e2).1 = .ok (fileResponse e2) ∧
      (fileResponse e2).success = true ∧
      (fileResponse e2).documents_added = 0 ∧
      (fileResponse e2).status = "processing") := by
  refine ⟨fun h => ?_, fun h => ?_⟩
  · rw [ingestUrl_run_of_accepted e1 h]
    exact ⟨rfl, rfl, rfl, rfl⟩
  · rw [ingestFile_run_of_accepted e2 h]
    exact ⟨rfl, rfl, rfl, rfl⟩

/-- Witness for C5 at concrete accepted environments. -/
theorem claim5_immediate_response_witness :
    ((ingestUrlEndpoint exUrlEnv).1 = .ok (urlResponse exUrlEnv) ∧
      (urlResponse exUrlEnv).success = true ∧
      (urlResponse exUrlEnv).documents_added = 0 ∧
      (urlResponse exUrlEnv).status = "processing") ∧
    ((ingestFileEndpoint exFileEnv).1 = .ok (fileResponse exFileEnv) ∧
      (fileResponse exFileEnv).success = true ∧
      (fileResponse exFileEnv).documents_added = 0 ∧
      (fileResponse exFileEnv).status = "processing") :=
  ⟨(claim5_immediate_response exUrlEnv exFileEnv).1 (by decide),
   (claim5_immediate_response exUrlEnv exFileEnv).2 (by decide)⟩

/-- C8: an ingestion request (ingest-url, ingest-file or ingest-base) naming
a plugin the registry does not hold fails with HTTP 404 and emits no event:
no file registry row is created and no status is written. -/
theorem claim8_unknown_plugin (e1 : UrlEnv) (e2 : FileEnv) (e3 : BaseEnv) :
    (getPlugin e1.registry e1.pluginName = none →
      errStatus (ingestUrlEndpoint e1).1 = some 404 ∧ (ingestUrlEndpoint e1).2 = []) ∧
    (getPlugin e2.registry e2.pluginName = none →
      errStatus (ingestFileEndpoint e2).1 = some 404 ∧ (ingestFileEndpoint e2).2 = []) ∧
    (getPlugin e3.registry e3.pluginName = none →
      errStatus (ingestBaseEndpoint e3).1 = some 404 ∧ (ingestBaseEndpoint e3).2 = []) := by
  refine ⟨fun h => ?_, fun h => ?_, fun h => ?_⟩
  · unfold ingestUrlEndpoint
    by_cases hc : e1.collectionFound <;> by_cases hh : e1.chromaFound <;>
      simp [hc, hh, h, errStatus]
  · unfold ingestFileEndpoint
    by_cases hc : e2.collectionFound <;> by_cases hh : e2.chromaFound <;>
      simp [hc, hh, h, errStatus]
  · unfold ingestBaseEndpoint
    by_cases hc : e3.collectionFound <;> by_cases hh : e3.chromaFound <;>
      simp [hc, hh, h, errStatus]

/-- Witness for C8 at concrete environments naming an unknown plugin. -/
theorem claim8_unknown_plugin_witness :
    (errStatus (ingestUrlEndpoint exBadUrlEnv).1 = some 404 ∧
      (ingestUrlEndpoint exBadUrlEnv).2 = []) ∧
    (errStatus (ingestFileEndpoint exBadFileEnv).1 = some 404 ∧
      (ingestFileEndpoint exBadFileEnv).2 = []) ∧
    (errStatus (ingestBaseEndpoint exBadBaseEnv).1 = some 404 ∧
      (ingestBaseEndpoint exBadBaseEnv).2 = []) :=
  ⟨(claim8_unknown_plugin exBadUrlEnv exBadFileEnv exBadBaseEnv).1 (by decide),
   (claim8_unknown_plugin exBadUrlEnv exBadFileEnv exBadBaseEnv).2.1 (by decide),
   (claim8_unknown_plugin exBadUrlEnv exBadFileEnv exBadBaseEnv).2.2 (by decide)⟩

/-- C7: the file status type has exactly the three states PROCESSING,
COMPLETED and FAILED (every status is one of them and they are pairwise
distinct), and a status change is a direct field assignment: the updated row
is the found row with only its status field replaced by the requested status,
whatever the previous status was. -/
theorem claim7_three_state_enum :
    (∀ s : FileStatus, s = .processing ∨ s = .completed ∨ s = .failed) ∧
    fileStatusMembers.Nodup ∧
    (∀ (rows : List FileRegistry) (fid : Nat) (st : FileStatus) (r0 : FileRegistry),
      rows.find? (fun r => r.id == fid) = some r0 →
      (updateFileStatusDb rows fid st).1 = some { r0 with status := st }) := by
  refine ⟨fun s => by cases s <;> simp, by decide, ?_⟩
  intro rows fid st r0 h
  simp [updateFileStatusDb, h]

/-- Witness for C7: updating the example row to completed returns the row
with only the status field replaced. -/
theorem claim7_three_state_enum_witness :
    (updateFileStatusDb exRows 1 .completed).1 =
      some { exRow with status := .completed } :=
  claim7_three_state_enum.2.2 exRows 1 .completed exRow (by decide)

/-- C9, refuted (code bug): for every status string the route admits — those
whose upper-casing is a FileStatus member name — the forwarded service call on
the upper-cased string is rejected, because the service validates by enum
value and the values are the lowercase words; so an admitted request always
ends in a 400 from the service and the endpoint never returns the updated
entry.  The concrete conjuncts evaluate the failing input "processing"
against a registry that does hold file 1. -/
theorem claim9_route_service_mismatch :
    (∀ s : String, routeAdmitsStatus s = true →
      ∀ (rows : List FileRegistry) (fid : Nat),
        fileStatusFromValue (pyUpper s) = none ∧
        updateFileStatusRoute rows fid s =
          .error ⟨400, "Invalid status: " ++ pyUpper s ++
            ". Must be one of: completed, processing, failed, deleted"⟩) ∧
    routeAdmitsStatus "processing" = true ∧
    exRows.find? (fun r => r.id == 1) = some exRow ∧
    updateFileStatusRoute exRows 1 "processing" =
      .error ⟨400,
        "Invalid status: PROCESSING. Must be one of: completed, processing, failed, deleted"⟩ := by
  refine ⟨?_, by decide, by decide, by rfl⟩
  intro s hs rows fid
  have hval : fileStatusFromValue (pyUpper s) = none := by
    have hs' := hs
    simp [routeAdmitsStatus, fileStatusMemberNames, fileStatusMembers,
      FileStatus.memberName] at hs'
    rcases hs' with h | h | h <;> rw [h] <;> decide
  refine ⟨hval, ?_⟩
  unfold updateFileStatusRoute
  simp [hs, serviceUpdateFileStatus, hval]

/-- Witness for C9 at the admitted status string "completed". -/
theorem claim9_route_service_mismatch_witness :
    fileStatusFromValue (pyUpper "completed") = none ∧
    updateFileStatusRoute exRows 1 "completed" =
      .error ⟨400, "Invalid status: " ++ pyUpper "completed" ++
        ". Must be one of: completed, processing, failed, deleted"⟩ :=
  claim9_route_service_mismatch.1 "completed" (by decide) exRows 1

/-- C3: both create_collection implementations keep the two stores
consistent: a successfully returned collection always carries a truthy
(non-empty, non-null) ChromaDB UUID, and when the database layer created the
row without storing a ChromaDB UUID the call raises instead of returning. -/
theorem claim3_uuid_consistency (env : CreateEnv) :
    (∀ c, createCollectionService env = .ok c → truthyUuid c.chromadb_uuid = true) ∧
    (∀ c, createCollectionCols env = .ok c → truthyUuid c.chromadb_uuid = true) ∧
    (∀ c0, env.dbResult = .ok c0 → truthyUuid c0.chromadb_uuid = false →
      (createCollectionService env).isOk = false ∧
      (createCollectionCols env).isOk = false) := by
  refine ⟨?_, ?_, ?_⟩
  · intro c h
    unfold createCollectionService at h
    repeat' split at h
    all_goals try simp_all
    all_goals (rw [← h]; clear h; simp_all)
  · intro c h
    unfold createCollectionCols at h
    repeat' split at h
    all_goals try simp_all
    all_goals (rw [← h]; clear h; simp_all)
  · intro c0 h0 hfalse
    constructor
    · unfold createCollectionService
      repeat' split
      all_goals simp_all [Except.isOk, Except.toBool]
    · unfold createCollectionCols
      repeat' split
      all_goals simp_all [Except.isOk, Except.toBool]

/-- Witness for C3: a concrete creation that stores a UUID returns it truthy,
and a concrete creation whose database row lacks the UUID does not return
successfully in either implementation. -/
theorem claim3_uuid_consistency_witness :
    truthyUuid exDbCol.chromadb_uuid = true ∧
    (createCollectionService exCreateEnvNoUuid).isOk = false ∧
    (createCollectionCols exCreateEnvNoUuid).isOk = false :=
  ⟨(claim3_uuid_consistency exCreateEnv).1 exDbCol rfl,
   ((claim3_uuid_consistency exCreateEnvNoUuid).2.2 exDbColNoUuid rfl rfl).1,
   ((claim3_uuid_consistency exCreateEnvNoUuid).2.2 exDbColNoUuid rfl rfl).2⟩

theorem formatResults_length_le (thr : ℚ) :
    ∀ (ds : List String) (ms : List MetaD) (qs : List ℚ),
      (formatResults thr ds ms qs).length ≤ ds.length := by
  intro ds
  induction ds with
  | nil => intro ms qs; simp [formatResults]
  | cons d ds ih =>
    intro ms qs
    cases ms with
    | nil => simp [formatResults]
    | cons m ms =>
      cases qs with
      | nil => simp [formatResults]
      | cons q qs =>
        have hih := ih ms qs
        by_cases hth : thr ≤ 1 - q <;> simp [formatResults, hth] <;> omega

theorem formatResults_mem (thr : ℚ) :
    ∀ (ds : List String) (ms : List MetaD) (qs : List ℚ) (hit : QueryHit),
      hit ∈ formatResults thr ds ms qs →
      thr ≤ hit.similarity ∧
      ∃ i q, ds.get? i = some hit.data ∧ ms.get? i = some hit.metadata ∧
        qs.get? i = some q ∧ hit.similarity = 1 - q := by
  intro ds
  induction ds with
  | nil => intro ms qs hit hmem; simp [formatResults] at hmem
  | cons d ds ih =>
    intro ms qs hit hmem
    cases ms with
    | nil => simp [formatResults] at hmem
    | cons m ms =>
      cases qs with
      | nil => simp [formatResults] at hmem
      | cons q qs =>
        simp only [formatResults, List.mem_append] at hmem
        rcases hmem with hmem | hmem
        · by_cases hth : thr ≤ 1 - q
          · simp only [hth, if_pos, List.mem_singleton] at hmem
            subst hmem
            exact ⟨hth, 0, q, rfl, rfl, rfl, rfl⟩
          · simp [hth] at hmem
        · obtain ⟨h1, i, q', h2, h3, h4, h5⟩ := ih ms qs hit hmem
          exact ⟨h1, i + 1, q', by simpa using h2, by simpa using h3,
            by simpa using h4, h5⟩

/-- C4: a successful simple_query answer, with top_k defaulting to 5 and
threshold to 0.0, holds at most top_k results whenever the vector store
honors the requested n_results; every result's similarity is 1.0 minus the
distance the store reported at the same position, and every result's
similarity reaches the threshold. -/
theorem claim4_simple_query (env : QueryEnv) (qt : String) (topK : Option Nat)
    (thr : Option ℚ) (out : List QueryHit)
    (hrun : simpleQueryPlugin env qt topK thr = .ok out)
    (hstore : (env.store (topK.getD 5)).documents.length ≤ topK.getD 5) :
    out.length ≤ topK.getD 5 ∧
    ∀ hit ∈ out,
      thr.getD 0 ≤ hit.similarity ∧
      ∃ i q, (env.store (topK.getD 5)).documents.get? i = some hit.data ∧
        (env.store (topK.getD 5)).metadatas.get? i = some hit.metadata ∧
        (env.store (topK.getD 5)).distances.get? i = some q ∧
        hit.similarity = 1 - q := by
  simp only [simpleQueryPlugin] at hrun
  repeat' split at hrun
  all_goals try exact Except.noConfusion hrun
  have hout : out = formatResults (thr.getD 0) (env.store (topK.getD 5)).documents
      (env.store (topK.getD 5)).metadatas (env.store (topK.getD 5)).distances :=
    (Except.ok.inj hrun).symm
  subst hout
  exact ⟨le_trans (formatResults_length_le _ _ _ _) hstore,
    fun hit hmem => formatResults_mem _ _ _ _ hit hmem⟩

/-- Witness for C4: the example query keeps exactly the hit at distance 0
with similarity 1 and drops the hit at distance 2. -/
theorem claim4_simple_query_witness :
    simpleQueryPlugin exQueryEnv "hello" none none = .ok [exHit] ∧
    [exHit].length ≤ 5 ∧
    (0 : ℚ) ≤ exHit.similarity ∧
    exHit.similarity = 1 - 0 := by
  have hq : ¬("hello" = "" ∨ pyStrip "hello" = "") := by decide
  have hrun : simpleQueryPlugin exQueryEnv "hello" none none = .ok [exHit] := by
    simp only [simpleQueryPlugin, exQueryEnv, exStore, Option.getD]
    rw [if_neg (by simp), if_neg hq, if_neg (by simp), if_neg (by simp)]
    norm_num [formatResults, exHit]
  have h := claim4_simple_query exQueryEnv "hello" none none [exHit] hrun (by decide)
  refine ⟨hrun, h.1, ?_, by norm_num [exHit]⟩
  exact (h.2 exHit (by simp)).1

theorem urlLoop_eq_flatten (splitter : String → List String) (urls : List String) :
    ∀ (data : List ScrapeResult) (i : Nat),
      urlLoop splitter urls i data =
        ((data.enumFrom i).map (fun p => perResultDocs splitter urls p.1 p.2)).flatten := by
  intro data
  induction data with
  | nil => intro i; simp [urlLoop]
  | cons r rs ih =>
    intro i
    simp [urlLoop, List.enumFrom, ih (i + 1)]

theorem chunkDocsOf_map_index (url : String) (chunks : List String) :
    (chunkDocsOf url chunks).map UDoc.chunk_index = List.range chunks.length := by
  unfold chunkDocsOf
  rw [List.map_map]
  exact List.enum_map_fst chunks

theorem chunkDocsOf_count (url : String) (chunks : List String) :
    ∀ d ∈ chunkDocsOf url chunks, d.chunk_count = chunks.length := by
  intro d hd
  simp only [chunkDocsOf, List.mem_map] at hd
  obtain ⟨p, _, hp⟩ := hd
  rw [← hp]

theorem chunkDocsOf_get? (url : String) (chunks : List String) (j : Nat) :
    (chunkDocsOf url chunks).get? j =
      (chunks.get? j).map (fun t => ⟨t, url, j, chunks.length⟩) := by
  unfold chunkDocsOf
  rw [List.get?_map, List.get?_enum]
  cases chunks.get? j <;> rfl

/-- C6: a completed url_ingest over non-empty URLs returns exactly the
concatenation, in input order, of the per-URL chunk lists; for a URL whose
scrape returned (non-empty) markdown the per-URL list is the splitter's
chunks, whose chunk_index fields run 0..n-1 in increasing order and whose
chunk_count fields all equal the number n of chunks, the j-th document
carrying the j-th chunk text. -/
theorem claim6_url_chunking (splitter : String → List String) (urls : List String)
    (data : List ScrapeResult) (hu : urls ≠ []) :
    urlIngest true true splitter urls "completed" data =
      .ok ((data.enum.map (fun p => perResultDocs splitter urls p.1 p.2)).flatten) ∧
    (∀ i r c, data.get? i = some r → r.markdown = some c → c ≠ "" →
      perResultDocs splitter urls i r =
        chunkDocsOf ((urls.get? i).getD "unknown_url") (splitter c)) ∧
    (∀ url chunks, (chunkDocsOf url chunks).map UDoc.chunk_index =
      List.range chunks.length) ∧
    (∀ url chunks, ∀ d ∈ chunkDocsOf url chunks, d.chunk_count = chunks.length) ∧
    (∀ url chunks j, (chunkDocsOf url chunks).get? j =
      (chunks.get? j).map (fun t => ⟨t, url, j, chunks.length⟩)) := by
  refine ⟨?_, ?_, chunkDocsOf_map_index, chunkDocsOf_count, chunkDocsOf_get?⟩
  · unfold urlIngest
    simp only [hu, if_neg, not_true, not_false_iff, Bool.not_true, ite_false, ite_true]
    simp [urlLoop_eq_flatten splitter urls data 0, List.enum]
  · intro i r c _ h2 h3
    unfold perResultDocs
    rw [h2]
    simp [h3]

/-- Witness for C6: one URL scraped to "md", split into two chunks. -/
theorem claim6_url_chunking_witness :
    urlIngest true true exSplitter ["https://example.org"] "completed" [⟨some "md"⟩] =
      .ok [⟨"md-1", "https://example.org", 0, 2⟩, ⟨"md-2", "https://example.org", 1, 2⟩] :=
  (claim6_url_chunking exSplitter ["https://example.org"] [⟨some "md"⟩] (by decide)).1

theorem intercalate_sep_irrelevant (s1 s2 : String) :
    ∀ l : List String, l.length ≤ 1 → String.intercalate s1 l = String.intercalate s2 l
  | [], _ => rfl
  | [_], _ => rfl
  | _ :: _ :: _, h => by simp at h

/-- C10, counterexample: on two stored chunks "a" and "b" with chunk_index 0
and 1, CollectionsService reconstructs "a\nb" with a real newline while
FileService reconstructs the distinct string joining with the literal
backslash-n sequence, so the two implementations do not return the same
content string. -/
theorem claim10_counterexample :
    fileServiceContent exGetRes ≠ collectionsServiceContent exGetRes ∧
    collectionsServiceContent exGetRes = "a\nb" ∧
    fileServiceContent exGetRes = "a" ++ fsSeparator ++ "b" := by decide

/-- C10 (amended): both implementations reconstruct the content by sorting
the chunks by chunk_index and joining their texts — CollectionsService with a
newline character, FileService with the literal two-character backslash-n
sequence — and the two strings coincide whenever at most one chunk is
reconstructed. -/
theorem claim10_amended (res : ChromaGetResult) :
    fileServiceContent res = String.intercalate fsSeparator (sortedChunkTexts res) ∧
    collectionsServiceContent res = String.intercalate "\n" (sortedChunkTexts res) ∧
    ((sortedChunkTexts res).length ≤ 1 →
      fileServiceContent res = collectionsServiceContent res) := by
  refine ⟨rfl, rfl, ?_⟩
  intro hlen
  exact intercalate_sep_irrelevant fsSeparator "\n" (sortedChunkTexts res) hlen

/-- Witness for the amended C10: on a single stored chunk both
implementations return the same content. -/
theorem claim10_amended_witness :
    fileServiceContent exGetResSmall = collectionsServiceContent exGetResSmall :=
  (claim10_amended exGetResSmall).2.2 (by decide)

end LambKB
